import Mathlib

/-!
Shallow embedding of the flash-sale reservation engine
(repository pcristin/not_golang_contest) and verification of its
specification claims.

The reservation store (Redis) is modelled as a record of key families;
the Lua scripts of internal/database/redis_scripts.go become pure
functions on that record; the HTTP handlers become functions from a
request plus an outcome oracle (covering the store round-trip failures
the Go code branches on) to an HTTP status, the list of records sent to
the background queue, the successor store, and a trace of the store
operations performed.
-/

namespace FlashSale

/-- Reservation-store (Redis) state, restricted to the key families the
core uses (internal/database/redis.go key namespace):
`sale:current:active_sale`, `sale:{id}:id`, `sale:{id}:stock`,
`sale:{id}:items_sold`, `sale:current:user:{uid}:count`,
`checkout:{code}`.  A key family is a function from its parameter to
`Option` of the stored value; `none` is an absent (or expired) key. -/
structure Store where
  activeSale : Option Int
  saleIdKey : Int → Option Int
  stock : Int → Option Int
  itemsSold : Int → Option Int
  userCount : String → Option Int
  codes : String → Option String

/-- Lua `tonumber(redis.call('GET', k) or 0)`: an absent key reads as 0. -/
def getOr0 (v : Option Int) : Int := v.getD 0

/-- The three counters the checkout/rollback scripts operate on. -/
structure Counters where
  stock : Int
  userCount : Int
  itemsSold : Int
deriving DecidableEq

/-- Result array of `AtomicCheckoutScript`
(internal/database/redis_scripts.go): `[stock, user_count, items_sold,
status_code]` with status codes 0=success, 1=out_of_stock,
2=user_limit_exceeded, 3=sale_limit_exceeded.  The Go side carries the
code as an integer (`CheckoutStatus`), so we keep `Int`. -/
structure CheckoutResult where
  stockRemaining : Int
  userCount : Int
  itemsSold : Int
  status : Int
deriving DecidableEq

/-- `AtomicCheckoutScript` (internal/database/redis_scripts.go lines
10-45) as a function on the three counters read through `getOr0`:
check stock, then user limit, then total limit; on the first failing
check return current values with that status and leave the counters
unchanged; otherwise `DECR` stock, `INCR` user count, `INCR` items sold
and return the new values with status 0. -/
def atomicCheckoutScript (c : Counters) (maxUserItems maxTotalItems : Int) :
    CheckoutResult × Counters :=
  if c.stock ≤ 0 then
    (⟨c.stock, c.userCount, c.itemsSold, 1⟩, c)
  else if c.userCount ≥ maxUserItems then
    (⟨c.stock, c.userCount, c.itemsSold, 2⟩, c)
  else if c.itemsSold ≥ maxTotalItems then
    (⟨c.stock, c.userCount, c.itemsSold, 3⟩, c)
  else
    let newStock := c.stock - 1
    let newUserCount := c.userCount + 1
    let newItemsSold := c.itemsSold + 1
    (⟨newStock, newUserCount, newItemsSold, 0⟩,
     ⟨newStock, newUserCount, newItemsSold⟩)

/-- `AtomicRollbackScript` (internal/database/redis_scripts.go lines
51-73): `INCR` stock, `DECR` user count, `DECR` items sold, then `SET`
the two decremented counters back to 0 whenever they went negative. -/
def atomicRollbackScript (c : Counters) : Counters :=
  let newStock := c.stock + 1
  let decUserCount := c.userCount - 1
  let decItemsSold := c.itemsSold - 1
  let newUserCount := if decUserCount < 0 then 0 else decUserCount
  let newItemsSold := if decItemsSold < 0 then 0 else decItemsSold
  ⟨newStock, newUserCount, newItemsSold⟩

/-- Read the three script keys for sale `saleID` and user `userID`
(`GET ... or 0`). -/
def readCounters (s : Store) (saleID : Int) (userID : String) : Counters :=
  ⟨getOr0 (s.stock saleID), getOr0 (s.userCount userID),
   getOr0 (s.itemsSold saleID)⟩

/-- Write the three script keys back (Redis `INCR`/`DECR`/`SET` create
the key when absent). -/
def writeCounters (s : Store) (saleID : Int) (userID : String) (c : Counters) :
    Store :=
  { s with
    stock := fun i => if i = saleID then some c.stock else s.stock i,
    userCount := fun u => if u = userID then some c.userCount else s.userCount u,
    itemsSold := fun i => if i = saleID then some c.itemsSold else s.itemsSold i }

/-- `AtomicCheckoutScript` applied to the store at the keys of sale
`saleID` and user `userID`.  The script mutates the keys only on the
success branch (the `DECR`/`INCR` calls sit after all three checks). -/
def runCheckoutScript (s : Store) (saleID : Int) (userID : String)
    (maxUserItems maxTotalItems : Int) : CheckoutResult × Store :=
  let (r, c') := atomicCheckoutScript (readCounters s saleID userID)
    maxUserItems maxTotalItems
  (r, if r.status = 0 then writeCounters s saleID userID c' else s)

/-- `AtomicRollbackScript` applied to the store at the keys of sale
`saleID` and user `userID`; the `INCR`/`DECR`/`SET` calls always write
all three keys. -/
def runRollbackScript (s : Store) (saleID : Int) (userID : String) : Store :=
  writeCounters s saleID userID
    (atomicRollbackScript (readCounters s saleID userID))

/-- In-process active-sale cache carried by `RedisClient`
(internal/database/types.go: `currentSaleID`, `cachedSaleTime`);
time is modelled in epoch seconds. -/
structure SaleCache where
  currentSaleID : Int
  cachedSaleTime : Int
deriving DecidableEq

/-- `RedisClient.GetActiveSaleID` (internal/database/redis.go lines
353-382): serve the cached sale id while it is nonzero and younger than
one hour (the code uses `1*time.Hour` although its comment speaks of one
minute); otherwise `GET sale:current:active_sale`, cache the value with
the current time, and fail when the pointer key is absent. -/
def GetActiveSaleID (c : SaleCache) (s : Store) (now : Int) :
    Except Unit (Int × SaleCache) :=
  if c.currentSaleID ≠ 0 ∧ now - c.cachedSaleTime < 3600 then
    Except.ok (c.currentSaleID, c)
  else
    match s.activeSale with
    | some id => Except.ok (id, ⟨id, now⟩)
    | none => Except.error ()

/-- `RedisClient.GetSaleCurrentID` (internal/database/redis.go lines
214-234): resolve the active sale id, then `GET sale:{id}:id`; a missing
key surfaces as a `redis.ErrNil` error (the Go wrapper returns the value
as a string, which the handler parses back; the stored value is the
integer sale id, so the parse is kept implicit). -/
def GetSaleCurrentID (c : SaleCache) (s : Store) (now : Int) :
    Except Unit (Int × SaleCache) :=
  match GetActiveSaleID c s now with
  | Except.error e => Except.error e
  | Except.ok (id, c') =>
    match s.saleIdKey id with
    | none => Except.error ()
    | some v => Except.ok (v, c')

/-- `RedisClient.AtomicCheckout` (internal/database/redis.go lines
481-529): resolve the active sale id (through the in-process cache),
then `EVAL` `AtomicCheckoutScript` on
`sale:{id}:stock`, `sale:current:user:{uid}:count`,
`sale:{id}:items_sold` with `max_user_items=10`,
`max_total_items=10000`. -/
def AtomicCheckout (c : SaleCache) (s : Store) (now : Int) (userID : String) :
    Except Unit (CheckoutResult × Store × SaleCache) :=
  match GetActiveSaleID c s now with
  | Except.error e => Except.error e
  | Except.ok (saleID, c') =>
    let (r, s') := runCheckoutScript s saleID userID 10 10000
    Except.ok (r, s', c')

/-- `RedisClient.SetCheckoutCode` (internal/database/redis.go lines
72-91): `SETEX checkout:{code} 20 payload`.  The JSON payload
`{user_id, sale_id, item_id, created_at}` is abstracted as a
delimiter-joined string; no claim observes its internal format, only
that it is a nonempty payload recoverable per code. -/
def encodePayload (userID : String) (saleID : Int) (itemID : String)
    (createdAt : Int) : String :=
  "payload:" ++ userID ++ "|" ++ toString saleID ++ "|" ++ itemID ++ "|" ++
    toString createdAt

/-- Store effect of `SetCheckoutCode`: the code key is (re)written. -/
def SetCheckoutCode (s : Store) (code payload : String) : Store :=
  { s with codes := fun k => if k = code then some payload else s.codes k }

/-- Outcome oracle for the `WATCH`/`GET`/`MULTI`/`DEL`/`EXEC`
transaction of `GetAndDeleteCheckoutCodeAtomically`: the round trips all
succeed and `EXEC` commits (`ok`), `EXEC` returns nil because a
concurrent writer touched the watched key (`raceLost`), or some round
trip fails with a store error (`rsError`). -/
inductive TakeOutcome
  | ok
  | raceLost
  | rsError
deriving DecidableEq

/-- `RedisClient.GetAndDeleteCheckoutCodeAtomically`
(internal/database/redis.go lines 647-701): `WATCH checkout:{code}`,
`GET` (an `ErrNil` read returns no payload and no error), `MULTI`,
`DEL`, `EXEC`; a nil `EXEC` reply (concurrent access) returns no payload
and no error and leaves the deletion uncommitted; any transport error
returns no payload with the error.  The result is the payload (if any)
paired with the successor store. -/
def GetAndDeleteCheckoutCodeAtomically (s : Store) (code : String)
    (outcome : TakeOutcome) : Except Unit (Option String) × Store :=
  match outcome with
  | TakeOutcome.rsError => (Except.error (), s)
  | TakeOutcome.raceLost =>
    match s.codes code with
    | none => (Except.ok none, s)
    | some _ => (Except.ok none, s)
  | TakeOutcome.ok =>
    match s.codes code with
    | none => (Except.ok none, s)
    | some payload =>
      (Except.ok (some payload),
       { s with codes := fun k => if k = code then none else s.codes k })

/-- The Go signature of `GetAndDeleteCheckoutCodeAtomically` is
`(string, error)`: an absent code, a lost race, and every error path all
yield the empty string for the data component.  This pair view is what
the purchase handler inspects. -/
def takeCodeGoPair (s : Store) (code : String) (outcome : TakeOutcome) :
    (String × Bool) × Store :=
  match GetAndDeleteCheckoutCodeAtomically s code outcome with
  | (Except.error _, s') => (("", true), s')
  | (Except.ok none, s') => (("", false), s')
  | (Except.ok (some payload), s') => ((payload, false), s')

/-- Terminal outcome of the code-consumption step of the purchase
handler: the HTTP error it writes, or the payload it goes on with. -/
inductive PurchaseStep
  | badRequest
  | notFound
  | serverError
  | proceed (payload : String)
deriving DecidableEq

/-- Code-consumption prelude of `Handler.Purchase`
(the purchase handler, lines 26-47): empty `code` → 400; then
`GetAndDeleteCheckoutCodeAtomically`, and the handler tests
`checkoutData == ""` (404) **before** it tests `err != nil` (500). -/
def purchaseTakeCodeStep (s : Store) (code : String) (outcome : TakeOutcome) :
    PurchaseStep × Store :=
  if code = "" then (PurchaseStep.badRequest, s)
  else
    let ((data, errFlag), s') := takeCodeGoPair s code outcome
    if data = "" then (PurchaseStep.notFound, s')
    else if errFlag then (PurchaseStep.serverError, s')
    else (PurchaseStep.proceed data, s')

/-- Checkout-attempt record (internal/database/types.go
`CheckoutAttempt`), restricted to the fields the claims observe. -/
structure CheckoutAttempt where
  id : Int
  userID : String
  saleID : Int
  itemID : String
  code : Option String
  status : String
  createdAt : Int
deriving DecidableEq

/-- Error taxonomy of a `GetCheckoutCode` probe: `errNil` for a missing
or expired key, `connFailure` for a failed store round trip (pool or
network).  `RedisClient.GetCheckoutCode` (internal/database/redis.go
lines 52-69) returns `("", err)` in **both** cases. -/
inductive ProbeErr
  | errNil
  | connFailure
deriving DecidableEq

/-- Sweep body of `Handler.CleanupExpiredCheckouts` (expiry reconciler,
lines 173-186): for each candidate attempt that carries a code, probe
the store with `GetCheckoutCode`; on **any** error collect the attempt
id.  Attempts without a code are skipped. -/
def collectExpiredIDs (attempts : List CheckoutAttempt)
    (probe : String → Except ProbeErr String) : List Int :=
  attempts.filterMap fun a =>
    match a.code with
    | none => none
    | some c =>
      match probe c with
      | Except.error _ => some a.id
      | Except.ok _ => none

/-- `PostgresClient.MarkAttemptsExpired` as seen through the attempts
table: every row whose id was collected gets status `expired`. -/
def markAttemptsExpired (table : List CheckoutAttempt) (ids : List Int) :
    List CheckoutAttempt :=
  table.map fun a => if a.id ∈ ids then { a with status := "expired" } else a

/-- `Handler.executeNewSale` (internal/api/scheduler.go lines 128-169)
restricted to its reservation-store effects.  `newSaleID` stands for the
authoritative id returned by the durable-store insert; the metadata
cache write and the best-effort durable-store close are outside the
store.  Steps 4-6 of the function: `UpdateActiveSalePointer` (plain
`SET`, no touch of the client-side sale cache), `CreateNewSaleKeys`
(`SETEX` id / stock=10000 / items_sold=0 for the new id), then
`CleanupOldSaleData` (`DEL` every `sale:current:user:*:count` and every
`checkout:*` key).  The in-process `SaleCache` of the `RedisClient` is
returned unchanged, because no step of this path writes it. -/
def executeNewSale (s : Store) (cache : SaleCache) (newSaleID : Int) :
    Store × SaleCache :=
  let s1 := { s with activeSale := some newSaleID }
  let s2 := { s1 with
    saleIdKey := fun i => if i = newSaleID then some newSaleID else s1.saleIdKey i,
    stock := fun i => if i = newSaleID then some 10000 else s1.stock i,
    itemsSold := fun i => if i = newSaleID then some 0 else s1.itemsSold i }
  let s3 := { s2 with
    userCount := fun _ => none,
    codes := fun _ => none }
  (s3, cache)

/-- Decimal digit accumulator of the base-10 parse: consume digits left
to right; any non-digit character fails the parse. -/
def parseDigitsAux : List Char → Nat → Option Nat
  | [], acc => some acc
  | ch :: rest, acc =>
    if ch.isDigit then parseDigitsAux rest (acc * 10 + (ch.toNat - 48))
    else none

/-- `strconv.ParseInt(s, 10, 64)` as the checkout handler uses it: an
optional sign followed by at least one decimal digit; anything else is
a parse error (`none`).  The 64-bit range check is omitted — no claim
exercises inputs beyond it, and the handler treats range errors exactly
like syntax errors (400). -/
def parseGoInt (s : String) : Option Int :=
  match s.data with
  | [] => none
  | '-' :: rest =>
    match rest with
    | [] => none
    | _ => (parseDigitsAux rest 0).map (fun n => -(n : Int))
  | '+' :: rest =>
    match rest with
    | [] => none
    | _ => (parseDigitsAux rest 0).map (fun n => (n : Int))
  | l => (parseDigitsAux l 0).map (fun n => (n : Int))

/-- Reservation-store operations the admission path can perform, plus
the legacy single-counter helpers of internal/database/redis.go
(`DecrementStockFastFail`, `IncrementStockFastFail`,
`IncrementUserCheckoutCount`, `DecrementUserCheckoutCount`,
`IncrementItemsSoldCount`, `DecrementItemsSoldCount`), recorded as an
execution trace. -/
inductive RSOp
  | getSaleCurrentIDOp
  | admitScriptOp
  | setCodeOp
  | rollbackScriptOp
  | legacyDecrStock
  | legacyIncrStock
  | legacyIncrUserCount
  | legacyDecrUserCount
  | legacyIncrItemsSold
  | legacyDecrItemsSold
deriving DecidableEq

/-- The non-atomic single-counter helpers. -/
def RSOp.isLegacyCounterOp : RSOp → Bool
  | RSOp.legacyDecrStock => true
  | RSOp.legacyIncrStock => true
  | RSOp.legacyIncrUserCount => true
  | RSOp.legacyDecrUserCount => true
  | RSOp.legacyIncrItemsSold => true
  | RSOp.legacyDecrItemsSold => true
  | _ => false

/-- A `/checkout` request: HTTP method and the `user_id` / `id` query
parameters. -/
structure CheckoutReq where
  method : String
  userID : String
  itemID : String
deriving DecidableEq

/-- Per-request oracle for the checkout handler: the wall clock, the
token `GenerateCode` mints, and the store round-trip failures the Go
code branches on (`AtomicCheckout` returning an error,
`SetCheckoutCode` returning an error, and the attempts channel being
full at the deferred send). -/
structure CheckoutEnv where
  now : Int
  code : String
  admitCallFails : Bool
  setCodeFails : Bool
  queueFull : Bool
deriving DecidableEq

/-- Observable outcome of one checkout request: HTTP status written,
attempt records handed to the attempts channel, successor store and
client cache, and the trace of store operations performed. -/
structure CheckoutOutcome where
  httpStatus : Nat
  enqueued : List CheckoutAttempt
  store : Store
  cache : SaleCache
  trace : List RSOp

/-- The non-blocking channel send (`select` with `default`): the record
is dropped when the queue is full. -/
def sendAttempt (queueFull : Bool) (a : CheckoutAttempt) : List CheckoutAttempt :=
  if queueFull then [] else [a]

/-- `Handler.Checkout`, the scripted-admit checkout handler (the
admission core): reject non-POST (405); reject a missing `user_id` or
`id` (400); resolve the active sale id via `GetSaleCurrentID` (error →
500); build the `pending` attempt record; reject an unparsable or
non-positive item id (400); run the atomic checkout script (round-trip
error → 500, nothing enqueued); map the script status — out_of_stock →
409, user_limit → 429, sale_limit → 409, unknown → 500, each with a
deferred non-blocking send of the updated record; on success mint a
code and `SetCheckoutCode` — on failure run the atomic rollback script
and return 500 (nothing enqueued); otherwise enqueue the `success`
record and return 201. -/
def Checkout (req : CheckoutReq) (env : CheckoutEnv) (c : SaleCache)
    (s : Store) : CheckoutOutcome :=
  if req.method ≠ "POST" then ⟨405, [], s, c, []⟩
  else if req.userID = "" ∨ req.itemID = "" then ⟨400, [], s, c, []⟩
  else
    match GetSaleCurrentID c s env.now with
    | Except.error _ => ⟨500, [], s, c, [RSOp.getSaleCurrentIDOp]⟩
    | Except.ok (saleID, c1) =>
      let attempt : CheckoutAttempt :=
        ⟨0, req.userID, saleID, req.itemID, none, "pending", env.now⟩
      match parseGoInt req.itemID with
      | none => ⟨400, [], s, c1, [RSOp.getSaleCurrentIDOp]⟩
      | some v =>
        if v ≤ 0 then ⟨400, [], s, c1, [RSOp.getSaleCurrentIDOp]⟩
        else if env.admitCallFails then
          ⟨500, [], s, c1, [RSOp.getSaleCurrentIDOp, RSOp.admitScriptOp]⟩
        else
          match AtomicCheckout c1 s env.now req.userID with
          | Except.error _ =>
            ⟨500, [], s, c1, [RSOp.getSaleCurrentIDOp, RSOp.admitScriptOp]⟩
          | Except.ok (r, s1, c2) =>
            if r.status = 1 then
              ⟨409, sendAttempt env.queueFull { attempt with status := "out of stock" },
               s1, c2, [RSOp.getSaleCurrentIDOp, RSOp.admitScriptOp]⟩
            else if r.status = 2 then
              ⟨429, sendAttempt env.queueFull { attempt with status := "user limit" },
               s1, c2, [RSOp.getSaleCurrentIDOp, RSOp.admitScriptOp]⟩
            else if r.status = 3 then
              ⟨409, sendAttempt env.queueFull { attempt with status := "sale limit" },
               s1, c2, [RSOp.getSaleCurrentIDOp, RSOp.admitScriptOp]⟩
            else if r.status ≠ 0 then
              ⟨500, sendAttempt env.queueFull { attempt with status := "unknown error" },
               s1, c2, [RSOp.getSaleCurrentIDOp, RSOp.admitScriptOp]⟩
            else if env.setCodeFails then
              match GetActiveSaleID c2 s1 env.now with
              | Except.error _ =>
                ⟨500, [], s1, c2,
                 [RSOp.getSaleCurrentIDOp, RSOp.admitScriptOp, RSOp.setCodeOp,
                  RSOp.rollbackScriptOp]⟩
              | Except.ok (rbSaleID, c3) =>
                ⟨500, [], runRollbackScript s1 rbSaleID req.userID, c3,
                 [RSOp.getSaleCurrentIDOp, RSOp.admitScriptOp, RSOp.setCodeOp,
                  RSOp.rollbackScriptOp]⟩
            else
              let payload := encodePayload req.userID saleID req.itemID env.now
              let s2 := SetCheckoutCode s1 env.code payload
              ⟨201,
               sendAttempt env.queueFull
                 { attempt with status := "success", code := some env.code },
               s2, c2,
               [RSOp.getSaleCurrentIDOp, RSOp.admitScriptOp, RSOp.setCodeOp]⟩

/-- Admit statuses as the specification names them (§4.1). -/
inductive SpecAdmitStatus
  | success
  | outOfStock
  | userLimit
  | saleLimit
deriving DecidableEq

/-- Written from the specification's words (§4.1 `admit` semantics), to
be compared with the embedding of the source script: checks evaluated in
order — `stock ≤ 0` → `out_of_stock`, else `user_count ≥ 10` →
`user_limit`, else `items_sold ≥ 10000` → `sale_limit` — the first
failing check returns that status with the current counter values and
makes no mutations; else atomically `stock−−`, `user_count++`,
`items_sold++` and return `success` with the new values.  The result is
(status, reported counter values, successor counters). -/
def specAdmit (c : Counters) : SpecAdmitStatus × Counters × Counters :=
  if c.stock ≤ 0 then (SpecAdmitStatus.outOfStock, c, c)
  else if c.userCount ≥ 10 then (SpecAdmitStatus.userLimit, c, c)
  else if c.itemsSold ≥ 10000 then (SpecAdmitStatus.saleLimit, c, c)
  else
    (SpecAdmitStatus.success,
     ⟨c.stock - 1, c.userCount + 1, c.itemsSold + 1⟩,
     ⟨c.stock - 1, c.userCount + 1, c.itemsSold + 1⟩)

/-- The source script's integer status codes read as spec statuses
(0=success, 1=out_of_stock, 2=user_limit, 3=sale_limit). -/
def statusOfCode (n : Int) : SpecAdmitStatus :=
  if n = 1 then SpecAdmitStatus.outOfStock
  else if n = 2 then SpecAdmitStatus.userLimit
  else if n = 3 then SpecAdmitStatus.saleLimit
  else SpecAdmitStatus.success

/-- The source script at the production arguments (`max_user=10`,
`max_total=10000`), viewed as (status, reported values, successor
counters) for comparison against `specAdmit`. -/
def admitScriptSpecView (c : Counters) : SpecAdmitStatus × Counters × Counters :=
  let (r, c') := atomicCheckoutScript c 10 10000
  (statusOfCode r.status, ⟨r.stockRemaining, r.userCount, r.itemsSold⟩, c')

/-- Concrete store used to witness the theorems: sale 1 active, stock
9999, 5 items sold, every user at count 3, no live codes. -/
def demoStore : Store :=
  ⟨some 1,
   fun i => if i = 1 then some 1 else none,
   fun i => if i = 1 then some 9999 else none,
   fun i => if i = 1 then some 5 else none,
   fun _ => some 3,
   fun _ => none⟩

/-- Concrete client cache holding sale 1, cached at epoch second 0. -/
def demoCache : SaleCache := ⟨1, 0⟩

/-- Concrete store with one live checkout code `C`. -/
def demoStoreWithCode : Store :=
  ⟨some 1,
   fun i => if i = 1 then some 1 else none,
   fun i => if i = 1 then some 9999 else none,
   fun i => if i = 1 then some 5 else none,
   fun _ => none,
   fun k => if k = "C" then some "payload" else none⟩

/-- Concrete pre-rotation store for the sale-rotation scenario: sale 1
active with stock 9000 and 1000 items sold, user `w` at count 7, one
live code `OLD`. -/
def rotStore : Store :=
  ⟨some 1,
   fun i => if i = 1 then some 1 else none,
   fun i => if i = 1 then some 9000 else none,
   fun i => if i = 1 then some 1000 else none,
   fun u => if u = "w" then some 7 else none,
   fun k => if k = "OLD" then some "p" else none⟩

/-- Client cache of the rotation scenario: sale 1 cached at epoch 0. -/
def rotCache : SaleCache := ⟨1, 0⟩

/-- Concrete candidate attempts for the expiry-reconciler scenario. -/
def demoAttempts : List CheckoutAttempt :=
  [⟨41, "u1", 1, "1", some "LIVE", "success", 0⟩,
   ⟨42, "u2", 1, "1", some "GONE", "success", 0⟩,
   ⟨43, "u3", 1, "1", none, "success", 0⟩]

/-- Store probe for the expiry-reconciler scenario: every round trip
fails with a connection failure, even though code `LIVE` is still in the
store. -/
def failingProbe : String → Except ProbeErr String :=
  fun _ => Except.error ProbeErr.connFailure

/-- The Lua clamp `if x < 0 then SET 0` expressed through `max`. -/
theorem iteNonnegEqMax (x : Int) : (if x < 0 then 0 else x) = max x 0 := by
  rcases lt_or_le x 0 with h | h
  · rw [if_pos h, max_eq_right h.le]
  · rw [if_neg (not_lt.mpr h), max_eq_left h]

/-- C1: the admit script, run on any store state, evaluates its checks
in order — `stock ≤ 0` first, then `user_count ≥ 10`, then
`items_sold ≥ 10000` — and a failing check returns that status code
(1/2/3) with the current counter values and an unchanged store; only
when all three checks pass does it decrement stock and increment both
user count and items sold, returning status 0 with the three new
values. -/
theorem C1_admit_script_semantics (s : Store) (saleID : Int) (userID : String) :
    (getOr0 (s.stock saleID) ≤ 0 →
      runCheckoutScript s saleID userID 10 10000 =
        (⟨getOr0 (s.stock saleID), getOr0 (s.userCount userID),
          getOr0 (s.itemsSold saleID), 1⟩, s)) ∧
    (0 < getOr0 (s.stock saleID) → 10 ≤ getOr0 (s.userCount userID) →
      runCheckoutScript s saleID userID 10 10000 =
        (⟨getOr0 (s.stock saleID), getOr0 (s.userCount userID),
          getOr0 (s.itemsSold saleID), 2⟩, s)) ∧
    (0 < getOr0 (s.stock saleID) → getOr0 (s.userCount userID) < 10 →
      10000 ≤ getOr0 (s.itemsSold saleID) →
      runCheckoutScript s saleID userID 10 10000 =
        (⟨getOr0 (s.stock saleID), getOr0 (s.userCount userID),
          getOr0 (s.itemsSold saleID), 3⟩, s)) ∧
    (0 < getOr0 (s.stock saleID) → getOr0 (s.userCount userID) < 10 →
      getOr0 (s.itemsSold saleID) < 10000 →
      runCheckoutScript s saleID userID 10 10000 =
        (⟨getOr0 (s.stock saleID) - 1, getOr0 (s.userCount userID) + 1,
          getOr0 (s.itemsSold saleID) + 1, 0⟩,
         writeCounters s saleID userID
           ⟨getOr0 (s.stock saleID) - 1, getOr0 (s.userCount userID) + 1,
            getOr0 (s.itemsSold saleID) + 1⟩)) := by
  refine ⟨fun h1 => ?_, fun h1 h2 => ?_, fun h1 h2 h3 => ?_, fun h1 h2 h3 => ?_⟩
  · simp only [runCheckoutScript, atomicCheckoutScript, readCounters]
    rw [if_pos h1]
    rfl
  · simp only [runCheckoutScript, atomicCheckoutScript, readCounters]
    rw [if_neg (not_le.mpr h1), if_pos h2]
    rfl
  · simp only [runCheckoutScript, atomicCheckoutScript, readCounters]
    rw [if_neg (not_le.mpr h1), if_neg (not_le.mpr h2), if_pos h3]
    rfl
  · simp only [runCheckoutScript, atomicCheckoutScript, readCounters]
    rw [if_neg (not_le.mpr h1), if_neg (not_le.mpr h2), if_neg (not_le.mpr h3)]
    rfl

/-- Witness for C1 at the concrete store `demoStore` (stock 9999, user
count 3, items sold 5: all checks pass, so the success branch fires). -/
theorem C1_admit_script_semantics_witness :
    runCheckoutScript demoStore 1 "u" 10 10000 =
      (⟨9998, 4, 6, 0⟩, writeCounters demoStore 1 "u" ⟨9998, 4, 6⟩) :=
  (C1_admit_script_semantics demoStore 1 "u").2.2.2 (by decide) (by decide)
    (by decide)

/-- C9: the rollback script, on any store state, increments stock by one
with no upper clamp, and decrements user count and items sold by one
each, clamping those two at zero, so the stored values are never
negative. -/
theorem C9_rollback_script_clamps (s : Store) (saleID : Int) (userID : String) :
    (runRollbackScript s saleID userID).stock saleID =
      some (getOr0 (s.stock saleID) + 1) ∧
    (runRollbackScript s saleID userID).userCount userID =
      some (max (getOr0 (s.userCount userID) - 1) 0) ∧
    (runRollbackScript s saleID userID).itemsSold saleID =
      some (max (getOr0 (s.itemsSold saleID) - 1) 0) ∧
    0 ≤ max (getOr0 (s.userCount userID) - 1) 0 ∧
    0 ≤ max (getOr0 (s.itemsSold saleID) - 1) 0 := by
  refine ⟨?_, ?_, ?_, le_max_right _ 0, le_max_right _ 0⟩
  · simp only [runRollbackScript, atomicRollbackScript, readCounters,
      writeCounters]
    rw [if_pos trivial]
  · simp only [runRollbackScript, atomicRollbackScript, readCounters,
      writeCounters]
    rw [if_pos trivial, iteNonnegEqMax]
  · simp only [runRollbackScript, atomicRollbackScript, readCounters,
      writeCounters]
    rw [if_pos trivial, iteNonnegEqMax]

/-- C8: `take_code` on a code absent from the store returns no payload
and no error (when the round trips succeed); a losing concurrent
invocation likewise returns no payload; and a payload is returned only
when the code existed, the transaction committed, and the code is gone
afterwards. -/
theorem C8_take_code_semantics (s : Store) (code : String)
    (outcome : TakeOutcome) :
    (s.codes code = none → outcome ≠ TakeOutcome.rsError →
      GetAndDeleteCheckoutCodeAtomically s code outcome = (Except.ok none, s)) ∧
    (outcome = TakeOutcome.raceLost →
      GetAndDeleteCheckoutCodeAtomically s code outcome = (Except.ok none, s)) ∧
    (∀ p, (GetAndDeleteCheckoutCodeAtomically s code outcome).1 =
        Except.ok (some p) →
      s.codes code = some p ∧ outcome = TakeOutcome.ok ∧
      (GetAndDeleteCheckoutCodeAtomically s code outcome).2.codes code = none) := by
  cases outcome <;> cases hc : s.codes code <;>
    simp [GetAndDeleteCheckoutCodeAtomically, hc]

/-- Witness for C8: on `demoStoreWithCode` the committed take of code
`C` returns its payload, and the code is gone from the successor
store. -/
theorem C8_take_code_semantics_witness :
    demoStoreWithCode.codes "C" = some "payload" ∧
    TakeOutcome.ok = TakeOutcome.ok ∧
    (GetAndDeleteCheckoutCodeAtomically demoStoreWithCode "C"
      TakeOutcome.ok).2.codes "C" = none :=
  (C8_take_code_semantics demoStoreWithCode "C" TakeOutcome.ok).2.2 "payload" rfl

/-- C6: the purchase handler tests the empty data sentinel before it
tests the error, and every error return of
`GetAndDeleteCheckoutCodeAtomically` carries empty data, so a store
error during `take_code` is answered with 404 (not 500): evaluated here
at a store whose code `C` is live while the round trip fails. -/
theorem C6_rs_error_mapped_to_404 :
    purchaseTakeCodeStep demoStoreWithCode "C" TakeOutcome.rsError =
      (PurchaseStep.notFound, demoStoreWithCode) := rfl

/-- C10: in the expiry reconciler, a candidate attempt that carries a
code is collected whenever the store probe returns **any** error —
including a connection failure, not only a missing key — and the
collected attempt is marked `expired` in the table. -/
theorem C10_any_probe_error_collects (attempts : List CheckoutAttempt)
    (probe : String → Except ProbeErr String) (a : CheckoutAttempt)
    (c : String) (e : ProbeErr) (ha : a ∈ attempts) (hc : a.code = some c)
    (hp : probe c = Except.error e) :
    a.id ∈ collectExpiredIDs attempts probe ∧
    ∀ b ∈ markAttemptsExpired attempts (collectExpiredIDs attempts probe),
      b.id = a.id → b.status = "expired" := by
  have hmem : a.id ∈ collectExpiredIDs attempts probe := by
    unfold collectExpiredIDs
    exact List.mem_filterMap.mpr ⟨a, ha, by simp [hc, hp]⟩
  refine ⟨hmem, ?_⟩
  intro b hb hid
  rcases List.mem_map.mp hb with ⟨a', ha', rfl⟩
  by_cases h : a'.id ∈ collectExpiredIDs attempts probe
  · simp [h]
  · rw [if_neg h] at hid ⊢
    exact absurd (hid ▸ hmem) h

/-- Witness for C10: with a probe that always fails with a connection
failure, attempt 41 — whose code `LIVE` the probe never actually checked
— is collected. -/
theorem C10_any_probe_error_collects_witness :
    (41 : Int) ∈ collectExpiredIDs demoAttempts failingProbe :=
  (C10_any_probe_error_collects demoAttempts failingProbe
    ⟨41, "u1", 1, "1", some "LIVE", "success", 0⟩ "LIVE" ProbeErr.connFailure
    (by decide) rfl rfl).1

/-- C3: after `executeNewSale` completes, every prior per-user count key
and every prior code is gone (the cleanup half of the claim holds), yet
the client-side sale cache is returned unchanged, so the process's next
admit — here at 700 s, inside the one-hour cache window — still resolves
the **prior** sale id and decrements the prior sale's stock key while
the new sale's counters stay untouched. -/
theorem C3_rotation_stale_cache :
    (executeNewSale rotStore rotCache 2).2 = rotCache ∧
    (executeNewSale rotStore rotCache 2).1.userCount "w" = none ∧
    (executeNewSale rotStore rotCache 2).1.codes "OLD" = none ∧
    ∃ r s2 c2,
      AtomicCheckout (executeNewSale rotStore rotCache 2).2
        (executeNewSale rotStore rotCache 2).1 700 "u" =
          Except.ok (r, s2, c2) ∧
      r.status = 0 ∧ s2.stock 1 = some 8999 ∧ s2.stock 2 = some 10000 ∧
      s2.itemsSold 1 = some 1001 ∧ s2.itemsSold 2 = some 0 := by
  refine ⟨rfl, rfl, rfl, _, _, _, rfl, rfl, ?_, ?_, ?_, ?_⟩ <;> rfl

/-- The checkout script only ever reports status 0, 1, 2 or 3. -/
theorem runCheckoutScript_status_cases (s : Store) (saleID : Int)
    (userID : String) (mu mt : Int) :
    (runCheckoutScript s saleID userID mu mt).1.status = 0 ∨
    (runCheckoutScript s saleID userID mu mt).1.status = 1 ∨
    (runCheckoutScript s saleID userID mu mt).1.status = 2 ∨
    (runCheckoutScript s saleID userID mu mt).1.status = 3 := by
  simp only [runCheckoutScript, atomicCheckoutScript]
  split_ifs <;> simp

/-- A successful `AtomicCheckout` round trip reports status 0-3. -/
theorem atomicCheckout_ok_status (c : SaleCache) (s : Store) (now : Int)
    (uid : String) (r : CheckoutResult) (s' : Store) (c' : SaleCache)
    (h : AtomicCheckout c s now uid = Except.ok (r, s', c')) :
    r.status = 0 ∨ r.status = 1 ∨ r.status = 2 ∨ r.status = 3 := by
  unfold AtomicCheckout at h
  cases hg : GetActiveSaleID c s now with
  | error e => rw [hg] at h; cases h
  | ok p =>
    obtain ⟨saleID, c1⟩ := p
    rcases hrun : runCheckoutScript s saleID uid 10 10000 with ⟨r0, s0⟩
    simp only [hg, hrun, Except.ok.injEq, Prod.mk.injEq] at h
    obtain ⟨hr, _, _⟩ := h
    subst hr
    have hcases := runCheckoutScript_status_cases s saleID uid 10 10000
    rw [hrun] at hcases
    exact hcases

/-- Exhaustive shape analysis of the checkout handler's outcome: every
execution lands in one of the eight terminal shapes (405; early 400;
sale-resolution 500; invalid-item 400; failed-admit 500; capacity
409/429 with a deferred send; set_code-failure 500 with a rollback; or
success 201 with a deferred send). -/
theorem checkout_cases (req : CheckoutReq) (env : CheckoutEnv)
    (cache : SaleCache) (s : Store) :
    Checkout req env cache s = ⟨405, [], s, cache, []⟩ ∨
    Checkout req env cache s = ⟨400, [], s, cache, []⟩ ∨
    Checkout req env cache s = ⟨500, [], s, cache, [RSOp.getSaleCurrentIDOp]⟩ ∨
    (∃ c1, Checkout req env cache s =
      ⟨400, [], s, c1, [RSOp.getSaleCurrentIDOp]⟩) ∨
    (∃ c1, Checkout req env cache s =
      ⟨500, [], s, c1, [RSOp.getSaleCurrentIDOp, RSOp.admitScriptOp]⟩) ∨
    (∃ a s1 c2 st, (st = 409 ∨ st = 429) ∧ Checkout req env cache s =
      ⟨st, sendAttempt env.queueFull a, s1, c2,
       [RSOp.getSaleCurrentIDOp, RSOp.admitScriptOp]⟩) ∨
    (∃ s2 c3, Checkout req env cache s =
      ⟨500, [], s2, c3,
       [RSOp.getSaleCurrentIDOp, RSOp.admitScriptOp, RSOp.setCodeOp,
        RSOp.rollbackScriptOp]⟩) ∨
    (∃ a s2 c2, Checkout req env cache s =
      ⟨201, sendAttempt env.queueFull a, s2, c2,
       [RSOp.getSaleCurrentIDOp, RSOp.admitScriptOp, RSOp.setCodeOp]⟩) := by
  by_cases hm : req.method ≠ "POST"
  · exact Or.inl (by simp [Checkout, hm])
  · by_cases hu : req.userID = "" ∨ req.itemID = ""
    · exact Or.inr (Or.inl (by simp [Checkout, hm, hu]))
    · cases hg : GetSaleCurrentID cache s env.now with
      | error e =>
        exact Or.inr (Or.inr (Or.inl (by simp [Checkout, hm, hu, hg])))
      | ok p =>
        obtain ⟨saleID, c1⟩ := p
        cases hti : parseGoInt req.itemID with
        | none =>
          exact Or.inr (Or.inr (Or.inr (Or.inl ⟨c1,
            by simp [Checkout, hm, hu, hg, hti]⟩)))
        | some v =>
          by_cases hv : v ≤ 0
          · exact Or.inr (Or.inr (Or.inr (Or.inl ⟨c1,
              by simp [Checkout, hm, hu, hg, hti, hv]⟩)))
          · by_cases haf : env.admitCallFails = true
            · exact Or.inr (Or.inr (Or.inr (Or.inr (Or.inl ⟨c1,
                by simp [Checkout, hm, hu, hg, hti, hv, haf]⟩))))
            · cases hac : AtomicCheckout c1 s env.now req.userID with
              | error e =>
                exact Or.inr (Or.inr (Or.inr (Or.inr (Or.inl ⟨c1,
                  by simp [Checkout, hm, hu, hg, hti, hv, haf, hac]⟩))))
              | ok t =>
                obtain ⟨r, s1, c2⟩ := t
                rcases atomicCheckout_ok_status c1 s env.now req.userID r s1 c2
                    hac with h0 | h1 | h2 | h3
                · by_cases hsc : env.setCodeFails = true
                  · cases hga : GetActiveSaleID c2 s1 env.now with
                    | error e =>
                      exact Or.inr (Or.inr (Or.inr (Or.inr (Or.inr (Or.inr
                        (Or.inl ⟨s1, c2, by simp [Checkout, hm, hu, hg, hti,
                          hv, haf, hac, h0, hsc, hga]⟩))))))
                    | ok q =>
                      obtain ⟨rbid, c3⟩ := q
                      exact Or.inr (Or.inr (Or.inr (Or.inr (Or.inr (Or.inr
                        (Or.inl ⟨runRollbackScript s1 rbid req.userID, c3,
                          by simp [Checkout, hm, hu, hg, hti, hv, haf, hac,
                            h0, hsc, hga]⟩))))))
                  · exact Or.inr (Or.inr (Or.inr (Or.inr (Or.inr (Or.inr
                      (Or.inr ⟨⟨0, req.userID, saleID, req.itemID,
                          some env.code, "success", env.now⟩,
                        SetCheckoutCode s1 env.code
                          (encodePayload req.userID saleID req.itemID env.now),
                        c2,
                        by simp [Checkout, hm, hu, hg, hti, hv, haf, hac, h0,
                          hsc]⟩))))))
                · exact Or.inr (Or.inr (Or.inr (Or.inr (Or.inr (Or.inl
                    ⟨⟨0, req.userID, saleID, req.itemID, none, "out of stock",
                        env.now⟩, s1, c2, 409, Or.inl rfl,
                      by simp [Checkout, hm, hu, hg, hti, hv, haf, hac,
                        h1]⟩)))))
                · exact Or.inr (Or.inr (Or.inr (Or.inr (Or.inr (Or.inl
                    ⟨⟨0, req.userID, saleID, req.itemID, none, "user limit",
                        env.now⟩, s1, c2, 429, Or.inr rfl,
                      by simp [Checkout, hm, hu, hg, hti, hv, haf, hac,
                        h2]⟩)))))
                · exact Or.inr (Or.inr (Or.inr (Or.inr (Or.inr (Or.inl
                    ⟨⟨0, req.userID, saleID, req.itemID, none, "sale limit",
                        env.now⟩, s1, c2, 409, Or.inl rfl,
                      by simp [Checkout, hm, hu, hg, hti, hv, haf, hac,
                        h3]⟩)))))

/-- C2: the admission decision is a single server-side scripted admit —
the script's (status, reported values, successor counters) behaviour
coincides with the spec's ordered-check admit semantics on every counter
state — and the scripted checkout handler never performs a legacy
single-counter `INCR`/`DECR` operation on any execution path, invoking
the admit script at most once per request. -/
theorem C2_admission_single_scripted_admit :
    (∀ c : Counters, admitScriptSpecView c = specAdmit c) ∧
    (∀ (req : CheckoutReq) (env : CheckoutEnv) (cache : SaleCache) (s : Store)
        (op : RSOp), op ∈ (Checkout req env cache s).trace →
      op.isLegacyCounterOp = false) ∧
    (∀ (req : CheckoutReq) (env : CheckoutEnv) (cache : SaleCache) (s : Store),
      (Checkout req env cache s).trace.count RSOp.admitScriptOp ≤ 1) := by
  refine ⟨?_, ?_, ?_⟩
  · intro c
    simp only [admitScriptSpecView, specAdmit, atomicCheckoutScript]
    split_ifs <;> rfl
  · intro req env cache s op hop
    rcases checkout_cases req env cache s with
      h | h | h | ⟨c1, h⟩ | ⟨c1, h⟩ | ⟨a, s1, c2, st, hst, h⟩ | ⟨s2, c3, h⟩ |
      ⟨a, s2, c2, h⟩ <;>
        rw [h] at hop <;> dsimp only at hop <;> fin_cases hop <;> rfl
  · intro req env cache s
    rcases checkout_cases req env cache s with
      h | h | h | ⟨c1, h⟩ | ⟨c1, h⟩ | ⟨a, s1, c2, st, hst, h⟩ | ⟨s2, c3, h⟩ |
      ⟨a, s2, c2, h⟩ <;>
        rw [h] <;> dsimp only <;> decide

/-- Witness for C2: the admit-script trace entry of a concrete
successful request is not a legacy counter operation. -/
theorem C2_admission_single_scripted_admit_witness :
    RSOp.isLegacyCounterOp RSOp.admitScriptOp = false :=
  C2_admission_single_scripted_admit.2.1 ⟨"POST", "u", "1"⟩
    ⟨10, "T", false, false, false⟩ demoCache demoStore RSOp.admitScriptOp
    (by decide)

/-- C4 counterexample: with the admit round trip failing, the request
terminates with 500 after the pending attempt record was built (the
sale id resolved and the item id validated), yet nothing is sent to the
attempts queue — so not every terminal path enqueues the record. -/
theorem C4_counterexample_failed_admit_drops_record :
    (Checkout ⟨"POST", "u", "1"⟩ ⟨10, "T", true, false, false⟩ demoCache
      demoStore).httpStatus = 500 ∧
    (Checkout ⟨"POST", "u", "1"⟩ ⟨10, "T", true, false, false⟩ demoCache
      demoStore).enqueued = [] := ⟨rfl, rfl⟩

/-- C4 (amended): only the admit-decision rejection paths (409/429) and
the success path (201) enqueue the attempt record, and only when the
queue is not full; every 405/400/500 terminal path — including the
failed-admit and failed-set_code 500 paths — enqueues nothing. -/
theorem C4_amended_enqueue_characterization (req : CheckoutReq)
    (env : CheckoutEnv) (cache : SaleCache) (s : Store) :
    ((Checkout req env cache s).httpStatus = 405 ∨
     (Checkout req env cache s).httpStatus = 400 ∨
     (Checkout req env cache s).httpStatus = 500 →
      (Checkout req env cache s).enqueued = []) ∧
    (env.queueFull = false →
      ((Checkout req env cache s).httpStatus = 409 ∨
       (Checkout req env cache s).httpStatus = 429 ∨
       (Checkout req env cache s).httpStatus = 201) →
      (Checkout req env cache s).enqueued ≠ []) ∧
    (env.queueFull = true → (Checkout req env cache s).enqueued = []) := by
  rcases checkout_cases req env cache s with
    h | h | h | ⟨c1, h⟩ | ⟨c1, h⟩ | ⟨a, s1, c2, st, hst, h⟩ | ⟨s2, c3, h⟩ |
    ⟨a, s2, c2, h⟩ <;>
      rw [h] <;>
      refine ⟨fun hbad => ?_, fun hq hok => ?_, fun hq => ?_⟩ <;>
      dsimp only at * <;>
      first
        | rfl
        | omega
        | simp [sendAttempt, hq]

/-- Witness for C4 (amended): a concrete successful request with a
non-full queue does enqueue its record. -/
theorem C4_amended_enqueue_characterization_witness :
    (Checkout ⟨"POST", "u", "1"⟩ ⟨10, "T", false, false, false⟩ demoCache
      demoStore).enqueued ≠ [] :=
  (C4_amended_enqueue_characterization ⟨"POST", "u", "1"⟩
    ⟨10, "T", false, false, false⟩ demoCache demoStore).2.1 rfl
    (Or.inr (Or.inr rfl))

/-- C5 counterexample: on a concrete request whose `set_code` fails
after a successful admit, the handler does run the rollback script and
answer 500, but it enqueues **no** attempt record at all — in
particular no record with status `unknown error` (that status is
produced only by the unreachable unknown-admit-status branch). -/
theorem C5_counterexample_set_code_failure_drops_record :
    (Checkout ⟨"POST", "u", "1"⟩ ⟨10, "T", false, true, false⟩ demoCache
      demoStore).httpStatus = 500 ∧
    (Checkout ⟨"POST", "u", "1"⟩ ⟨10, "T", false, true, false⟩ demoCache
      demoStore).trace =
      [RSOp.getSaleCurrentIDOp, RSOp.admitScriptOp, RSOp.setCodeOp,
       RSOp.rollbackScriptOp] ∧
    (Checkout ⟨"POST", "u", "1"⟩ ⟨10, "T", false, true, false⟩ demoCache
      demoStore).enqueued = [] := ⟨rfl, rfl, rfl⟩

/-- C5 (amended): when `set_code` fails after a successful admit, the
handler runs the atomic rollback script and returns HTTP 500, and the
attempt record is not enqueued (it still holds its `pending` status when
the handler returns, and no `unknown error` record exists). -/
theorem C5_amended_set_code_failure (req : CheckoutReq) (env : CheckoutEnv)
    (cache : SaleCache) (s : Store) (saleID : Int) (c1 : SaleCache)
    (r : CheckoutResult) (s1 : Store) (c2 : SaleCache) (v : Int)
    (hm : req.method = "POST") (hu : req.userID ≠ "") (hi : req.itemID ≠ "")
    (hg : GetSaleCurrentID cache s env.now = Except.ok (saleID, c1))
    (hti : parseGoInt req.itemID = some v) (hv : 0 < v)
    (haf : env.admitCallFails = false)
    (hac : AtomicCheckout c1 s env.now req.userID = Except.ok (r, s1, c2))
    (h0 : r.status = 0) (hsc : env.setCodeFails = true) :
    (Checkout req env cache s).httpStatus = 500 ∧
    RSOp.rollbackScriptOp ∈ (Checkout req env cache s).trace ∧
    (Checkout req env cache s).enqueued = [] := by
  have hvle : ¬v ≤ 0 := not_le.mpr hv
  cases hga : GetActiveSaleID c2 s1 env.now with
  | error e =>
    refine ⟨?_, ?_, ?_⟩ <;>
      simp [Checkout, hm, hu, hi, hg, hti, hvle, haf, hac, h0, hsc, hga]
  | ok q =>
    obtain ⟨rbid, c3⟩ := q
    refine ⟨?_, ?_, ?_⟩ <;>
      simp [Checkout, hm, hu, hi, hg, hti, hvle, haf, hac, h0, hsc, hga]

/-- Witness for C5 (amended) at the concrete failing-set_code run. -/
theorem C5_amended_set_code_failure_witness :
    (Checkout ⟨"POST", "u", "1"⟩ ⟨10, "T", false, true, false⟩ demoCache
      demoStore).httpStatus = 500 ∧
    RSOp.rollbackScriptOp ∈ (Checkout ⟨"POST", "u", "1"⟩
      ⟨10, "T", false, true, false⟩ demoCache demoStore).trace ∧
    (Checkout ⟨"POST", "u", "1"⟩ ⟨10, "T", false, true, false⟩ demoCache
      demoStore).enqueued = [] :=
  C5_amended_set_code_failure ⟨"POST", "u", "1"⟩ ⟨10, "T", false, true, false⟩
    demoCache demoStore 1 demoCache ⟨9998, 4, 6, 0⟩
    (writeCounters demoStore 1 "u" ⟨9998, 4, 6⟩) demoCache 1 rfl (by decide)
    (by decide) rfl rfl (by decide) rfl rfl rfl rfl

/-- C7: a checkout request whose item id parses to a non-positive
integer is answered with HTTP 400, the store is returned untouched (no
reservation-store counter mutated), and nothing is enqueued. -/
theorem C7_nonpositive_item_id_no_mutation (req : CheckoutReq)
    (env : CheckoutEnv) (cache : SaleCache) (s : Store) (saleID : Int)
    (c1 : SaleCache) (v : Int) (hm : req.method = "POST")
    (hu : req.userID ≠ "") (hi : req.itemID ≠ "")
    (hg : GetSaleCurrentID cache s env.now = Except.ok (saleID, c1))
    (hti : parseGoInt req.itemID = some v) (hv : v ≤ 0) :
    (Checkout req env cache s).httpStatus = 400 ∧
    (Checkout req env cache s).store = s ∧
    (Checkout req env cache s).enqueued = [] := by
  refine ⟨?_, ?_, ?_⟩ <;> simp [Checkout, hm, hu, hi, hg, hti, hv]

/-- Witness for C7 at the concrete request with item id `0`. -/
theorem C7_nonpositive_item_id_no_mutation_witness :
    (Checkout ⟨"POST", "u", "0"⟩ ⟨10, "T", false, false, false⟩ demoCache
      demoStore).httpStatus = 400 ∧
    (Checkout ⟨"POST", "u", "0"⟩ ⟨10, "T", false, false, false⟩ demoCache
      demoStore).store = demoStore ∧
    (Checkout ⟨"POST", "u", "0"⟩ ⟨10, "T", false, false, false⟩ demoCache
      demoStore).enqueued = [] :=
  C7_nonpositive_item_id_no_mutation ⟨"POST", "u", "0"⟩
    ⟨10, "T", false, false, false⟩ demoCache demoStore 1 demoCache 0 rfl
    (by decide) (by decide) rfl rfl (by decide)

end FlashSale
